import Mathlib

/-!
Shallow embedding of the voice-AI platform's real-time conversation
orchestration subsystem: the `VoiceOrchestrator` (conversation history and
turn processing), the WebSocket transport (message dispatch, streaming
transcription events, base64 audio transport), the `DeepgramService`
live-connection lifecycle, and the Twilio telephony bridge (TwiML
generation, the gather and status webhook handlers, and the in-memory
active-call registry).

JavaScript effects are made explicit: provider calls are record fields of
type `Except`, mutation of the in-memory history and registry is explicit
state passing, and JavaScript truthiness on optional strings and numbers
is modelled by dedicated helpers.
-/

namespace VoiceAI

/-- Errors thrown by the JS code are carried as plain strings. -/
abbrev Err := String

/-- Raw audio bytes (a Node `Buffer`) as a list of byte values. -/
abbrev AudioBytes := List Nat

/-! ## JavaScript truthiness and string helpers -/

/-- Truthiness of an optional JS string: `undefined` and `""` are falsy. -/
def jsTruthyStr : Option String → Bool
  | none => false
  | some s => !(s == "")

/-- JS `a || d` for an optional string `a` with string default `d`. -/
def jsOrStr (a : Option String) (d : String) : String :=
  match a with
  | none => d
  | some s => if s == "" then d else s

/-- JS `a || d` for an optional number `a` with numeric default `d` (0 is falsy). -/
def jsOrNat (a : Option Nat) (d : Nat) : Nat :=
  match a with
  | none => d
  | some n => if n == 0 then d else n

/-- JS `a || b` over two optional strings, as used for `req.query.call_sid || CallSid`. -/
def jsOrOpt (a b : Option String) : Option String :=
  if jsTruthyStr a then a else b

/-- JS `String.prototype.toLowerCase`. -/
def jsToLower (s : String) : String := ⟨s.data.map Char.toLower⟩

/-- Drop leading whitespace characters. -/
def dropWhileWs : List Char → List Char
  | [] => []
  | c :: t => if c.isWhitespace then dropWhileWs t else c :: t

/-- JS `String.prototype.trim`: strip whitespace from both ends. -/
def jsTrim (s : String) : String :=
  ⟨(dropWhileWs ((dropWhileWs s.data).reverse)).reverse⟩

/-- Check that `needle` occurs as a contiguous run inside the list. -/
def containsSeq (needle : List Char) : List Char → Bool
  | [] => needle.isEmpty
  | c :: rest => needle.isPrefixOf (c :: rest) || containsSeq needle rest

/-- JS `haystack.includes(needle)`: substring containment. -/
def strIncludes (haystack needle : String) : Bool :=
  containsSeq needle.data haystack.data

/-! ## Base64 codec

Model of Node's `Buffer.prototype.toString('base64')` and
`Buffer.from(s, 'base64')` used on the socket protocol's audio fields. -/

/-- The standard base64 alphabet, index `n` holding the digit of value `n`. -/
def b64alphabet : List Char :=
  ['A', 'B', 'C', 'D', 'E', 'F', 'G', 'H', 'I', 'J', 'K', 'L', 'M',
   'N', 'O', 'P', 'Q', 'R', 'S', 'T', 'U', 'V', 'W', 'X', 'Y', 'Z',
   'a', 'b', 'c', 'd', 'e', 'f', 'g', 'h', 'i', 'j', 'k', 'l', 'm',
   'n', 'o', 'p', 'q', 'r', 's', 't', 'u', 'v', 'w', 'x', 'y', 'z',
   '0', '1', '2', '3', '4', '5', '6', '7', '8', '9', '+', '/']

/-- Character of a 6-bit value. -/
def sextetToChar (n : Nat) : Char := b64alphabet.getD n 'A'

/-- Value of a base64 digit character. -/
def charToSextet (c : Char) : Nat := b64alphabet.findIdx (fun x => x == c)

/-- Base64-encode a byte list, three bytes to four digits, `=`-padded. -/
def b64encode : List Nat → List Char
  | [] => []
  | [a] =>
      [sextetToChar (a / 4), sextetToChar (a % 4 * 16), '=', '=']
  | [a, b] =>
      [sextetToChar (a / 4), sextetToChar (a % 4 * 16 + b / 16),
       sextetToChar (b % 16 * 4), '=']
  | a :: b :: c :: rest =>
      sextetToChar (a / 4) :: sextetToChar (a % 4 * 16 + b / 16) ::
      sextetToChar (b % 16 * 4 + c / 64) :: sextetToChar (c % 64) ::
      b64encode rest

/-- Base64-decode four digits to three bytes, honouring `=` padding. -/
def b64decode : List Char → List Nat
  | c1 :: c2 :: c3 :: c4 :: rest =>
      if c3 == '=' then
        [charToSextet c1 * 4 + charToSextet c2 / 16]
      else if c4 == '=' then
        [charToSextet c1 * 4 + charToSextet c2 / 16,
         charToSextet c2 % 16 * 16 + charToSextet c3 / 4]
      else
        (charToSextet c1 * 4 + charToSextet c2 / 16) ::
        (charToSextet c2 % 16 * 16 + charToSextet c3 / 4) ::
        (charToSextet c3 % 4 * 64 + charToSextet c4) ::
        b64decode rest
  | _ => []

/-- String form of the encoder (`buffer.toString('base64')`). -/
def b64encodeS (bs : AudioBytes) : String := ⟨b64encode bs⟩

/-- Byte form of the decoder (`Buffer.from(s, 'base64')`). -/
def b64decodeS (s : String) : AudioBytes := b64decode s.data

/-! ## Data model: messages, assistant configuration, providers -/

/-- One conversation-history entry (`{ role, content }`). -/
structure Msg where
  role : String
  content : String
deriving DecidableEq

/-- The slice of the assistant configuration read by the orchestration code.
Model parameters (temperature, max tokens, voice settings) are absorbed into
the provider functions, which are fixed per assistant. -/
structure Assistant where
  system_prompt : String
  first_message : Option String
  model_provider : String
  voice_provider : String
  stt_provider : Option String
  end_call_phrases : Option (List String)
deriving DecidableEq

/-- Trace entry: one call to an external provider. -/
inductive ProvCall
  | transcribe (bytes : AudioBytes)
  | generate (history : List Msg)
  | synthesize (text : String)
deriving DecidableEq

/-- External collaborators as pure functions returning `Except`: the awaited
JS calls either resolve or throw. `saveMsg` is the database insert;
`genOpenai` returns the completion's `content` field (possibly null). -/
structure Providers where
  saveMsg : String → String → Except Err Unit
  genOpenai : List Msg → Except Err (Option String)
  ttsEleven : String → Except Err AudioBytes
  ttsOpenai : String → Except Err AudioBytes
  sttDeepgram : AudioBytes → Except Err String
  sttWhisper : AudioBytes → Except Err String

/-! ## VoiceOrchestrator -/

/-- History seeded by the `VoiceOrchestrator` constructor: the system prompt. -/
def initHistory (a : Assistant) : List Msg := [⟨"system", a.system_prompt⟩]

/-- Embedding of `VoiceOrchestrator.generateLLMResponse`: dispatch on
`model_provider`, `response.content || ''` on success; second component is
the provider-call trace. -/
def generateLLMResponse (a : Assistant) (p : Providers) (h : List Msg) :
    Except Err String × List ProvCall :=
  if a.model_provider == "openai" then
    match p.genOpenai h with
    | .ok content => (.ok (content.getD ""), [.generate h])
    | .error e => (.error e, [.generate h])
  else
    (.error ("Unsupported model provider: " ++ a.model_provider), [])

/-- Embedding of `VoiceOrchestrator.generateAudio`: dispatch on `voice_provider`. -/
def generateAudio (a : Assistant) (p : Providers) (text : String) :
    Except Err AudioBytes × List ProvCall :=
  if a.voice_provider == "elevenlabs" then
    (p.ttsEleven text, [.synthesize text])
  else if a.voice_provider == "openai" then
    (p.ttsOpenai text, [.synthesize text])
  else
    (.error ("Unsupported voice provider: " ++ a.voice_provider), [])

/-- Outcome of one text turn: the returned value (or the rethrown error), the
conversation history after the call, and the provider calls made. -/
structure TurnOut where
  result : Except Err (String × AudioBytes)
  history : List Msg
  calls : List ProvCall

/-- Embedding of `VoiceOrchestrator.processUserMessage`, step for step: save
the user message, push it onto the history, generate, save and push the
assistant reply, synthesize. An await that throws stops the sequence; pushes
already performed stay visible in `history`. -/
def processUserMessage (a : Assistant) (p : Providers) (h : List Msg)
    (userMessage : String) : TurnOut :=
  match p.saveMsg "user" userMessage with
  | .error e => ⟨.error e, h, []⟩
  | .ok _ =>
    let h1 := h ++ [⟨"user", userMessage⟩]
    match generateLLMResponse a p h1 with
    | (.error e, cs) => ⟨.error e, h1, cs⟩
    | (.ok reply, cs) =>
      match p.saveMsg "assistant" reply with
      | .error e => ⟨.error e, h1, cs⟩
      | .ok _ =>
        let h2 := h1 ++ [⟨"assistant", reply⟩]
        match generateAudio a p reply with
        | (.error e, cs2) => ⟨.error e, h2, cs ++ cs2⟩
        | (.ok bytes, cs2) => ⟨.ok (reply, bytes), h2, cs ++ cs2⟩

/-- Embedding of `VoiceOrchestrator.transcribeAudio`: STT provider dispatch
with default `'deepgram'`. -/
def transcribeAudio (a : Assistant) (p : Providers) (bytes : AudioBytes) :
    Except Err String × List ProvCall :=
  let stt := jsOrStr a.stt_provider "deepgram"
  if stt == "deepgram" then (p.sttDeepgram bytes, [.transcribe bytes])
  else if stt == "whisper" then (p.sttWhisper bytes, [.transcribe bytes])
  else (.error ("Unsupported STT provider: " ++ stt), [])

/-- Outcome of one audio turn (`{text, audio, transcription}`). -/
structure AudioTurnOut where
  result : Except Err (String × AudioBytes × String)
  history : List Msg
  calls : List ProvCall

/-- Embedding of `VoiceOrchestrator.processUserAudio`: transcribe, reject an
empty transcript, then delegate to `processUserMessage`. -/
def processUserAudio (a : Assistant) (p : Providers) (h : List Msg)
    (bytes : AudioBytes) : AudioTurnOut :=
  match transcribeAudio a p bytes with
  | (.error e, cs) => ⟨.error e, h, cs⟩
  | (.ok t, cs) =>
    if t == "" then ⟨.error "Failed to transcribe audio", h, cs⟩
    else
      let r := processUserMessage a p h t
      match r.result with
      | .error e => ⟨.error e, r.history, cs ++ r.calls⟩
      | .ok (text, bytesOut) => ⟨.ok (text, bytesOut, t), r.history, cs ++ r.calls⟩

/-! ## DeepgramService live-connection state -/

/-- Live-connection state of `DeepgramService`: `none` is closed; while open
we record the chunks forwarded to the provider. -/
structure DeepgramState where
  liveConnection : Option (List AudioBytes)
deriving DecidableEq

/-- Embedding of `DeepgramService.isLiveConnectionActive`. -/
def isLiveConnectionActive (st : DeepgramState) : Bool :=
  st.liveConnection.isSome

/-- Embedding of `DeepgramService.sendAudio`: throws when no live connection
is open, otherwise forwards the bytes. -/
def sendAudio (st : DeepgramState) (bytes : AudioBytes) :
    Except Err DeepgramState :=
  match st.liveConnection with
  | none => .error "No active live connection"
  | some sent => .ok ⟨some (sent ++ [bytes])⟩

/-! ## Socket transport -/

/-- Server-to-client protocol messages sent by the WebSocket handler. -/
inductive OutMsg
  | connected (sessionId : String)
  | assistantMessage (text : String) (audioB64 : String) (transcription : Option String)
  | interimTranscript (text : String) (confidence : Option Int)
  | audioStreamReady
  | audioStreamClosed
  | errorMsg (message : String)
  | sessionEnded
deriving DecidableEq

/-- One event from the live-transcription side channel. The JS confidence is
a number only forwarded verbatim; an `Int` stands in for it. -/
structure TranscriptEvent where
  text : String
  isFinal : Bool
  confidence : Option Int
deriving DecidableEq

/-- Branch taken by the `deepgram.on('transcript')` handler. -/
inductive SocketAction
  | processTurn (text : String)
  | sendInterim (text : String) (confidence : Option Int)
  | noAction
deriving DecidableEq

/-- Embedding of the branch structure of the `deepgram.on('transcript')`
handler: `if (data.isFinal && data.text.trim()) ... else if (!data.isFinal) ...`. -/
def onTranscript (ev : TranscriptEvent) : SocketAction :=
  if ev.isFinal && !(jsTrim ev.text == "") then .processTurn ev.text
  else if !ev.isFinal then .sendInterim ev.text ev.confidence
  else .noAction

/-- Run the `deepgram.on('transcript')` handler: a final non-blank event
processes a turn (an error inside is caught and only logged); an interim
event pushes an `interim-transcript` message. Returns the history after the
event, the messages sent, and the provider calls made. -/
def runTranscript (a : Assistant) (p : Providers) (h : List Msg)
    (ev : TranscriptEvent) : List Msg × List OutMsg × List ProvCall :=
  match onTranscript ev with
  | .processTurn t =>
    let r := processUserMessage a p h t
    match r.result with
    | .ok (text, bytes) =>
        (r.history, [.assistantMessage text (b64encodeS bytes) (some t)], r.calls)
    | .error _ => (r.history, [], r.calls)
  | .sendInterim t c => (h, [.interimTranscript t c], [])
  | .noAction => (h, [], [])

/-- Embedding of the `user-audio` branch of the WebSocket message handler:
reject missing audio data before any provider call, otherwise decode the
base64 payload and run `processUserAudio`, mapping an error to an `error`
protocol message. -/
def handleUserAudio (a : Assistant) (p : Providers) (h : List Msg)
    (data : Option String) : List Msg × List OutMsg × List ProvCall :=
  if !(jsTruthyStr data) then
    (h, [.errorMsg "Audio data required"], [])
  else
    let bytes := b64decodeS (data.getD "")
    let r := processUserAudio a p h bytes
    match r.result with
    | .ok (text, bytesOut, transcription) =>
        (r.history, [.assistantMessage text (b64encodeS bytesOut) (some transcription)], r.calls)
    | .error _ => (r.history, [.errorMsg "Failed to process audio"], r.calls)

/-- Embedding of the `user-audio-stream-chunk` branch: forward the chunk only
when the live connection is active and data is present; any error raised is
caught and only logged, never sent to the client. -/
def handleAudioStreamChunk (st : DeepgramState) (data : Option String) :
    DeepgramState × List OutMsg :=
  if isLiveConnectionActive st && jsTruthyStr data then
    match sendAudio st (b64decodeS (data.getD "")) with
    | .ok st' => (st', [])
    | .error _ => (st, [])
  else (st, [])

/-! ## Telephony bridge: TwiML -/

/-- Gather options handed to `generateTwiML`. -/
structure GatherCfg where
  input : Option (List String) := none
  action : Option String := none
  timeout : Option Nat := none
  speechTimeout : Option String := none
  speechModel : Option String := none
deriving DecidableEq

/-- Parameter object of `TwilioService.generateTwiML`. -/
structure TwiMLParams where
  say : Option String := none
  play : Option String := none
  gather : Option GatherCfg := none
  twRecord : Bool := false
  hangup : Bool := false
deriving DecidableEq

/-- One TwiML verb of the generated voice response; a `gather` carries its
resolved options and its nested `say`. -/
inductive TwiMLVerb
  | say (text : String)
  | play (url : String)
  | gather (input : List String) (action : Option String) (timeout : Nat)
      (speechTimeout : String) (speechModel : String) (innerSay : Option String)
  | twRecord
  | hangup
deriving DecidableEq

/-- Embedding of `TwilioService.generateTwiML`: each truthy parameter appends
its verb in source order; the gather nests a `say` when `params.say` is set. -/
def generateTwiML (ps : TwiMLParams) : List TwiMLVerb :=
  (if jsTruthyStr ps.say then [TwiMLVerb.say (ps.say.getD "")] else [])
  ++ (if jsTruthyStr ps.play then [TwiMLVerb.play (ps.play.getD "")] else [])
  ++ (match ps.gather with
      | some g =>
        [TwiMLVerb.gather (g.input.getD ["speech"]) g.action (jsOrNat g.timeout 3)
          (jsOrStr g.speechTimeout "auto")
          (jsOrStr g.speechModel "experimental_conversations")
          (if jsTruthyStr ps.say then ps.say else none)]
      | none => [])
  ++ (if ps.twRecord then [TwiMLVerb.twRecord] else [])
  ++ (if ps.hangup then [TwiMLVerb.hangup] else [])

/-- Whether the markup contains a gather instruction. -/
def hasGather (l : List TwiMLVerb) : Bool :=
  l.any fun v => match v with | .gather .. => true | _ => false

/-- Whether the markup contains a hangup instruction. -/
def hasHangup (l : List TwiMLVerb) : Bool :=
  l.any fun v => match v with | .hangup => true | _ => false

/-- Whether the markup speaks the given text as a top-level `say`. -/
def saysText (l : List TwiMLVerb) (t : String) : Bool :=
  l.any fun v => match v with | .say s => s == t | _ => false

/-! ## Telephony bridge: registry and the gather handler -/

/-- One entry of the module-level `activeCalls` map: the registered
orchestrator (its conversation history) and the assistant snapshot. -/
structure ActiveCall where
  assistant : Assistant
  history : List Msg
deriving DecidableEq

/-- The `activeCalls` map as an association list keyed by call SID. -/
abbrev Registry := List (String × ActiveCall)

/-- Map lookup `activeCalls.get(callSid)`; a missing key yields `none`. -/
def lookupCall (sid : Option String) (reg : Registry) : Option ActiveCall :=
  match sid with
  | none => none
  | some s => reg.lookup s

/-- Map removal `activeCalls.delete(callSid)`. -/
def removeCall (sid : String) (reg : Registry) : Registry :=
  reg.filter fun e => !(e.1 == sid)

/-- Store the orchestrator's mutated history back into its registry entry. -/
def updateCallHistory (sid : String) (h : List Msg) (reg : Registry) : Registry :=
  reg.map fun e => if e.1 == sid then (e.1, { e.2 with history := h }) else e

/-- Request body/query of the speech-result (gather) webhook. -/
structure GatherReq where
  bodyCallSid : Option String
  speechResult : Option String
  queryCallSid : Option String
deriving DecidableEq

/-- Response of the gather handler: the markup and the registry afterwards. -/
structure GatherResp where
  twiml : List TwiMLVerb
  registry : Registry

/-- Action URL for the next gather. -/
def gatherAction (baseUrl sid : String) : String :=
  baseUrl ++ "/api/v1/twilio/gather?call_sid=" ++ sid

/-- Embedding of `router.post('/gather')`: re-prompt on missing speech,
expire on a missing registry entry, otherwise run the turn, then hang up
(removing the entry) when an end phrase matches case-insensitively, else
speak the reply and gather again. A thrown turn error is caught and answered
with apology markup. -/
def gatherHandler (baseUrl : String) (p : Providers) (reg : Registry)
    (req : GatherReq) : GatherResp :=
  let callSid := jsOrOpt req.queryCallSid req.bodyCallSid
  let sidText := callSid.getD "undefined"
  if !(jsTruthyStr req.speechResult) then
    ⟨generateTwiML
      { say := some "I didn't catch that. Could you please repeat?"
        gather := some { input := some ["speech"]
                         action := some (gatherAction baseUrl sidText)
                         timeout := some 3 } }, reg⟩
  else
    let speech := req.speechResult.getD ""
    match lookupCall callSid reg with
    | none =>
        ⟨generateTwiML { say := some "Session expired. Please call again."
                         hangup := true }, reg⟩
    | some ac =>
      let t := processUserMessage ac.assistant p ac.history speech
      let reg1 := updateCallHistory sidText t.history reg
      match t.result with
      | .error _ =>
          ⟨generateTwiML { say := some "An error occurred.", hangup := true }, reg1⟩
      | .ok (text, _) =>
        let endPhrases := ac.assistant.end_call_phrases.getD []
        let shouldEnd :=
          endPhrases.any fun phrase => strIncludes (jsToLower speech) (jsToLower phrase)
        if shouldEnd then
          ⟨generateTwiML { say := some text, hangup := true }, removeCall sidText reg1⟩
        else
          ⟨generateTwiML
            { say := some text
              gather := some { input := some ["speech"]
                               action := some (gatherAction baseUrl sidText)
                               timeout := some 3
                               speechTimeout := some "auto" } }, reg1⟩

/-! ## Telephony bridge: the status-callback handler -/

/-- Persisted `calls` row fields the status callback touches; the `NOW()`
timestamps are modelled as set/unset flags. -/
structure CallRec where
  status : String
  durationSeconds : Nat
  answeredBy : Option String
  endedAt : Bool := false
  answeredAt : Bool := false
deriving DecidableEq

/-- Persisted `sessions` row, linked to its call by the call SID. -/
structure SessionRec where
  callSid : Option String
  status : String
deriving DecidableEq

/-- State the status callback operates on: the persisted `calls` rows keyed
by call SID, the persisted `sessions` rows, and the `activeCalls` registry. -/
structure BridgeState where
  calls : List (String × CallRec)
  sessions : List SessionRec
  registry : Registry
deriving DecidableEq

/-- Request body of the status callback webhook. -/
structure StatusReq where
  callSid : String
  callStatus : String
  callDuration : Option Nat
  answeredBy : Option String
deriving DecidableEq

/-- The unconditional `UPDATE calls SET ...` of the status callback:
status, duration (`CallDuration || 0`) and answered-by are overwritten;
`ended_at` is stamped on `completed`, `answered_at` on `in-progress`. -/
def updateCallRec (req : StatusReq) (c : CallRec) : CallRec :=
  { c with
    status := req.callStatus
    durationSeconds := req.callDuration.getD 0
    answeredBy := req.answeredBy
    endedAt := if req.callStatus == "completed" then true else c.endedAt
    answeredAt := if req.callStatus == "in-progress" then true else c.answeredAt }

/-- Embedding of `router.post('/status')`: always update the call row; only
on `completed` or `failed` delete the registry entry and end the sessions
owned by the call. -/
def statusHandler (req : StatusReq) (st : BridgeState) : BridgeState :=
  let calls := st.calls.map fun e =>
    if e.1 == req.callSid then (e.1, updateCallRec req e.2) else e
  if req.callStatus == "completed" || req.callStatus == "failed" then
    { calls := calls
      registry := removeCall req.callSid st.registry
      sessions := st.sessions.map fun s =>
        if s.callSid == some req.callSid then { s with status := "ended" } else s }
  else
    { st with calls := calls }

/-! ## Concrete fixtures for closed instances -/

/-- Assistant configuration used by concrete instances. -/
def assistantW : Assistant :=
  { system_prompt := "You are helpful."
    first_message := some "Hello"
    model_provider := "openai"
    voice_provider := "elevenlabs"
    stt_provider := some "deepgram"
    end_call_phrases := some ["goodbye"] }

/-- Providers whose calls all succeed. -/
def providersOk : Providers :=
  { saveMsg := fun _ _ => .ok ()
    genOpenai := fun _ => .ok (some "Hi there!")
    ttsEleven := fun _ => .ok [1, 2, 3]
    ttsOpenai := fun _ => .ok [4, 5]
    sttDeepgram := fun _ => .ok "transcribed text"
    sttWhisper := fun _ => .ok "whisper text" }

/-- Providers whose generation call fails. -/
def providersGenFail : Providers :=
  { providersOk with genOpenai := fun _ => .error "generation failed" }

/-- A registry holding one live call `CA1`. -/
def regW : Registry :=
  [("CA1", { assistant := assistantW, history := [⟨"system", "You are helpful."⟩] })]

/-- Bridge state with one in-progress call, its active session, and its
registry entry. -/
def bridgeW : BridgeState :=
  { calls := [("CA1", { status := "in-progress", durationSeconds := 0, answeredBy := none })]
    sessions := [{ callSid := some "CA1", status := "active" }]
    registry := regW }

/-- Status callback reporting `busy` for call `CA1`. -/
def busyReq : StatusReq :=
  { callSid := "CA1", callStatus := "busy", callDuration := none, answeredBy := none }

/-- Status callback reporting `completed` for call `CA1`. -/
def completedReq : StatusReq :=
  { callSid := "CA1", callStatus := "completed", callDuration := some 42, answeredBy := none }

/-- Status callback reporting `ringing` for call `CA1`. -/
def ringingReq : StatusReq :=
  { callSid := "CA1", callStatus := "ringing", callDuration := none, answeredBy := none }

/-- Bridge state whose call `CA1` already reached the terminal status
`completed`. -/
def bridgeTerminal : BridgeState :=
  { calls := [("CA1", { status := "completed", durationSeconds := 42, answeredBy := none,
                        endedAt := true })]
    sessions := []
    registry := [] }

/-! ## Registry lemmas -/

/-- Looking up a key right after deleting it finds nothing. -/
theorem lookup_removeCall (sid : String) (reg : Registry) :
    (removeCall sid reg).lookup sid = none := by
  induction reg with
  | nil => rfl
  | cons e t ih =>
    obtain ⟨k, v⟩ := e
    simp only [removeCall, List.filter] at ih ⊢
    cases hk : (k == sid) with
    | true => simpa using ih
    | false =>
      have hks : (sid == k) = false := by
        rw [beq_eq_false_iff_ne] at hk ⊢
        exact fun hh => hk hh.symm
      simpa [List.lookup, hks] using ih

/-! ## C5: interim transcripts are advisory only -/

/-- Claim C5: an interim (non-final) streaming transcription event never
invokes `processUserMessage` and never changes the conversation history;
it only emits an `interim-transcript` message. Only a final event takes the
turn-processing branch. -/
theorem interim_never_triggers_turn (a : Assistant) (p : Providers)
    (h : List Msg) (ev : TranscriptEvent) :
    (ev.isFinal = false →
      runTranscript a p h ev = (h, [.interimTranscript ev.text ev.confidence], []) ∧
      ∀ t, onTranscript ev ≠ SocketAction.processTurn t) ∧
    (∀ t, onTranscript ev = SocketAction.processTurn t → ev.isFinal = true) := by
  constructor
  · intro hf
    constructor
    · simp [runTranscript, onTranscript, hf]
    · intro t hc
      simp [onTranscript, hf] at hc
  · intro t hc
    cases hf : ev.isFinal with
    | true => rfl
    | false => simp [onTranscript, hf] at hc

/-- Closed instance of C5 at a concrete interim event. -/
theorem interim_never_triggers_turn_witness :
    runTranscript assistantW providersOk [] ⟨"hel", false, some 9⟩ =
      ([], [.interimTranscript "hel" (some 9)], []) ∧
    ∀ t, onTranscript ⟨"hel", false, some 9⟩ ≠ SocketAction.processTurn t :=
  (interim_never_triggers_turn assistantW providersOk [] ⟨"hel", false, some 9⟩).1 rfl

/-! ## C10: blank final transcripts are dropped -/

/-- Claim C10: a final streaming transcription event whose text is empty or
whitespace-only takes no branch: no orchestrator call, no history change, no
message to the client. -/
theorem blank_final_transcript_ignored (a : Assistant) (p : Providers)
    (h : List Msg) (ev : TranscriptEvent) :
    ev.isFinal = true → jsTrim ev.text = "" →
    onTranscript ev = SocketAction.noAction ∧ runTranscript a p h ev = (h, [], []) := by
  intro hf ht
  have hact : onTranscript ev = SocketAction.noAction := by
    simp [onTranscript, hf, ht]
  exact ⟨hact, by simp [runTranscript, hact]⟩

/-- Closed instance of C10 at a whitespace-only final event. -/
theorem blank_final_transcript_ignored_witness :
    onTranscript ⟨"  ", true, none⟩ = SocketAction.noAction ∧
    runTranscript assistantW providersOk [] ⟨"  ", true, none⟩ = ([], [], []) :=
  blank_final_transcript_ignored assistantW providersOk [] ⟨"  ", true, none⟩ rfl (by decide)

/-! ## C8: missing audio data is rejected before any provider call -/

/-- Claim C8: a `user-audio` message without a `data` field is answered with
an `error` message; no provider is called and the history is unchanged. -/
theorem missing_audio_data_rejected (a : Assistant) (p : Providers) (h : List Msg) :
    handleUserAudio a p h none = (h, [.errorMsg "Audio data required"], []) := by
  simp [handleUserAudio, jsTruthyStr]

/-! ## C6: feeding a closed stream is a harmless no-op -/

/-- Claim C6: a `user-audio-stream-chunk` arriving while no live connection
is open leaves the connection state unchanged, forwards nothing, and sends
no error to the client. -/
theorem feed_while_closed_noop (st : DeepgramState) (d : Option String) :
    st.liveConnection = none → handleAudioStreamChunk st d = (st, []) := by
  intro hc
  simp [handleAudioStreamChunk, isLiveConnectionActive, hc]

/-- Closed instance of C6 at a concrete chunk. -/
theorem feed_while_closed_noop_witness :
    handleAudioStreamChunk ⟨none⟩ (some "AAAA") = (⟨none⟩, []) :=
  feed_while_closed_noop ⟨none⟩ (some "AAAA") rfl

/-! ## C7: empty speech re-prompts and never hangs up -/

/-- Claim C7: a speech-result webhook without a `SpeechResult` field returns
a re-prompt plus a fresh gather instruction and no hangup, whatever the rest
of the request and registry. -/
theorem empty_speech_reprompts (baseUrl : String) (p : Providers)
    (reg : Registry) (req : GatherReq) :
    req.speechResult = none →
    hasGather (gatherHandler baseUrl p reg req).twiml = true ∧
    hasHangup (gatherHandler baseUrl p reg req).twiml = false ∧
    saysText (gatherHandler baseUrl p reg req).twiml
      "I didn't catch that. Could you please repeat?" = true ∧
    (gatherHandler baseUrl p reg req).registry = reg := by
  intro hs
  simp [gatherHandler, hs, jsTruthyStr, generateTwiML, hasGather, hasHangup,
    saysText, jsOrNat, jsOrStr]

/-- Closed instance of C7 at a concrete request. -/
theorem empty_speech_reprompts_witness :
    hasGather (gatherHandler "http://x" providersOk regW
        ⟨some "CA1", none, none⟩).twiml = true ∧
    hasHangup (gatherHandler "http://x" providersOk regW
        ⟨some "CA1", none, none⟩).twiml = false ∧
    saysText (gatherHandler "http://x" providersOk regW
        ⟨some "CA1", none, none⟩).twiml
      "I didn't catch that. Could you please repeat?" = true ∧
    (gatherHandler "http://x" providersOk regW
        ⟨some "CA1", none, none⟩).registry = regW :=
  empty_speech_reprompts "http://x" providersOk regW ⟨some "CA1", none, none⟩ rfl

/-! ## C1: history growth of a text turn -/

/-- Claim C1: a successful `processUserMessage` grows the in-memory history
by exactly the user message followed by the assistant reply; when the
generation provider fails, only the user message is appended, no assistant
message is added, and the error propagates to the caller. -/
theorem processUserMessage_history_growth (a : Assistant) (p : Providers)
    (h : List Msg) (m : String) :
    (∀ r hist cs, processUserMessage a p h m = ⟨.ok r, hist, cs⟩ →
      hist = h ++ [⟨"user", m⟩, ⟨"assistant", r.1⟩]) ∧
    (∀ e, a.model_provider = "openai" → p.saveMsg "user" m = .ok () →
      p.genOpenai (h ++ [⟨"user", m⟩]) = .error e →
      processUserMessage a p h m =
        ⟨.error e, h ++ [⟨"user", m⟩], [.generate (h ++ [⟨"user", m⟩])]⟩) := by
  constructor
  · intro r hist cs hr
    unfold processUserMessage at hr
    split at hr
    · simp at hr
    · dsimp only at hr
      split at hr
      · simp at hr
      · rename_i reply cs1 hgen
        split at hr
        · simp at hr
        · split at hr
          · simp at hr
          · rename_i bytes cs2 htts
            obtain ⟨h1, h2, h3⟩ := TurnOut.mk.injEq .. ▸ hr
            injection h1 with h1
            subst h1
            simpa using h2.symm
  · intro e hmp hsave hgen
    unfold processUserMessage
    rw [hsave]
    dsimp only
    have hglm : generateLLMResponse a p (h ++ [⟨"user", m⟩]) =
        (.error e, [.generate (h ++ [⟨"user", m⟩])]) := by
      unfold generateLLMResponse
      rw [hmp, hgen]
      simp
    rw [hglm]

/-- Closed instance of C1: a successful turn appends user then assistant;
a turn whose generation fails appends the user message only and rethrows. -/
theorem processUserMessage_history_growth_witness :
    [Msg.mk "user" "Hi", Msg.mk "assistant" "Hi there!"] =
      [] ++ [Msg.mk "user" "Hi", Msg.mk "assistant" ("Hi there!", [1, 2, 3]).1] ∧
    processUserMessage assistantW providersGenFail [] "Hi" =
      ⟨.error "generation failed", [] ++ [⟨"user", "Hi"⟩],
        [.generate ([] ++ [⟨"user", "Hi"⟩])]⟩ :=
  ⟨(processUserMessage_history_growth assistantW providersOk [] "Hi").1
      ("Hi there!", [1, 2, 3]) [Msg.mk "user" "Hi", Msg.mk "assistant" "Hi there!"]
      [.generate [⟨"user", "Hi"⟩], .synthesize "Hi there!"] (by rfl),
   (processUserMessage_history_growth assistantW providersGenFail [] "Hi").2
      "generation failed" rfl rfl rfl⟩

/-! ## C2: end-phrase matching in the gather handler -/

/-- Claim C2: with a registered orchestrator, non-empty speech and a
successful turn, the gather handler tests the speech against the configured
end phrases by case-insensitive substring matching; a match deletes the
registry entry and yields markup with a hangup and no gather, while no match
yields markup that speaks the reply and gathers again. -/
theorem gather_end_phrase_matching (baseUrl : String) (p : Providers)
    (reg : Registry) (req : GatherReq) (ac : ActiveCall) (text : String)
    (bytes : AudioBytes) :
    jsTruthyStr req.speechResult = true →
    lookupCall (jsOrOpt req.queryCallSid req.bodyCallSid) reg = some ac →
    (processUserMessage ac.assistant p ac.history (req.speechResult.getD "")).result
        = .ok (text, bytes) →
    (((ac.assistant.end_call_phrases.getD []).any fun phrase =>
        strIncludes (jsToLower (req.speechResult.getD "")) (jsToLower phrase)) = true →
      (gatherHandler baseUrl p reg req).registry.lookup
          ((jsOrOpt req.queryCallSid req.bodyCallSid).getD "undefined") = none ∧
      hasHangup (gatherHandler baseUrl p reg req).twiml = true ∧
      hasGather (gatherHandler baseUrl p reg req).twiml = false) ∧
    (((ac.assistant.end_call_phrases.getD []).any fun phrase =>
        strIncludes (jsToLower (req.speechResult.getD "")) (jsToLower phrase)) = false →
      hasGather (gatherHandler baseUrl p reg req).twiml = true ∧
      hasHangup (gatherHandler baseUrl p reg req).twiml = false ∧
      (text ≠ "" → saysText (gatherHandler baseUrl p reg req).twiml text = true)) := by
  intro hTruthy hLook hRes
  constructor
  · intro hEnd
    simp only [gatherHandler, hTruthy, Bool.not_true, Bool.false_eq_true, if_false,
      hLook, hRes, hEnd, if_true]
    refine ⟨lookup_removeCall _ _, ?_, ?_⟩ <;>
      by_cases htxt : (text == "") = true <;>
        simp [generateTwiML, hasHangup, hasGather, jsTruthyStr, htxt]
  · intro hEnd
    simp only [gatherHandler, hTruthy, Bool.not_true, Bool.false_eq_true, if_false,
      hLook, hRes, hEnd, Bool.false_eq_true, if_false]
    refine ⟨?_, ?_, ?_⟩
    · by_cases htxt : (text == "") = true <;>
        simp [generateTwiML, hasGather, jsTruthyStr, htxt]
    · by_cases htxt : (text == "") = true <;>
        simp [generateTwiML, hasHangup, jsTruthyStr, htxt]
    · intro hne
      have htxt : (text == "") = false := beq_eq_false_iff_ne.mpr hne
      simp [generateTwiML, saysText, jsTruthyStr, htxt]

/-- Closed instance of C2: `"goodbye"` as end phrase, mixed-case speech
`"Well, GOODBYE then"` hangs up without a gather and clears the registry;
non-matching speech speaks the reply and gathers again. -/
theorem gather_end_phrase_matching_witness :
    ((gatherHandler "http://x" providersOk regW
        ⟨some "CA1", some "Well, GOODBYE then", none⟩).registry.lookup
        ((jsOrOpt (none : Option String) (some "CA1")).getD "undefined") = none ∧
      hasHangup (gatherHandler "http://x" providersOk regW
        ⟨some "CA1", some "Well, GOODBYE then", none⟩).twiml = true ∧
      hasGather (gatherHandler "http://x" providersOk regW
        ⟨some "CA1", some "Well, GOODBYE then", none⟩).twiml = false) ∧
    (hasGather (gatherHandler "http://x" providersOk regW
        ⟨some "CA1", some "Tell me more", none⟩).twiml = true ∧
      hasHangup (gatherHandler "http://x" providersOk regW
        ⟨some "CA1", some "Tell me more", none⟩).twiml = false ∧
      ("Hi there!" ≠ "" → saysText (gatherHandler "http://x" providersOk regW
        ⟨some "CA1", some "Tell me more", none⟩).twiml "Hi there!" = true)) :=
  ⟨(gather_end_phrase_matching "http://x" providersOk regW
      ⟨some "CA1", some "Well, GOODBYE then", none⟩
      ⟨assistantW, [⟨"system", "You are helpful."⟩]⟩ "Hi there!" [1, 2, 3]
      (by decide) (by decide) (by rfl)).1 (by decide),
   (gather_end_phrase_matching "http://x" providersOk regW
      ⟨some "CA1", some "Tell me more", none⟩
      ⟨assistantW, [⟨"system", "You are helpful."⟩]⟩ "Hi there!" [1, 2, 3]
      (by decide) (by decide) (by rfl)).2 (by decide)⟩

/-! ## C3: terminal status cleanup -/

/-- Counterexample to C3 as stated: a status callback reporting `busy` — a
terminal status per the claim — leaves the open registry entry in place and
the owned session still `active`. -/
theorem status_busy_no_cleanup_counterexample :
    ((statusHandler busyReq bridgeW).registry.lookup "CA1").isSome = true ∧
    (∃ s ∈ (statusHandler busyReq bridgeW).sessions,
      s.callSid = some "CA1" ∧ s.status = "active") ∧
    busyReq.callStatus = "busy" := by decide

/-- Amended claim C3: only the statuses `completed` and `failed` make the
status callback remove the registry entry and cascade the owned sessions to
`ended`; `busy` and `no-answer` trigger no cleanup. -/
theorem status_terminal_cleanup (req : StatusReq) (st : BridgeState) :
    (req.callStatus = "completed" ∨ req.callStatus = "failed" →
      (statusHandler req st).registry.lookup req.callSid = none ∧
      ∀ s ∈ (statusHandler req st).sessions, s.callSid = some req.callSid →
        s.status = "ended") ∧
    (req.callStatus = "busy" ∨ req.callStatus = "no-answer" →
      (statusHandler req st).registry = st.registry ∧
      (statusHandler req st).sessions = st.sessions) := by
  constructor
  · intro hterm
    have hcond : (req.callStatus == "completed" || req.callStatus == "failed") = true := by
      rcases hterm with h | h <;> simp [h]
    constructor
    · simp only [statusHandler, hcond, if_true]
      exact lookup_removeCall _ _
    · intro s hs hsid
      simp only [statusHandler, hcond, if_true, List.mem_map] at hs
      obtain ⟨s0, _, rfl⟩ := hs
      by_cases h0 : (s0.callSid == some req.callSid) = true
      · simp [h0]
      · rw [if_neg h0] at hsid ⊢
        exact absurd (beq_iff_eq.mpr hsid) h0
  · intro hnt
    have hcond : (req.callStatus == "completed" || req.callStatus == "failed") = false := by
      rcases hnt with h | h <;> simp [h]
    simp [statusHandler, hcond]

/-- Closed instance of amended C3: a `completed` callback clears the
registry entry and ends the owned session. -/
theorem status_terminal_cleanup_witness :
    ((statusHandler completedReq bridgeW).registry.lookup "CA1" = none ∧
      ∀ s ∈ (statusHandler completedReq bridgeW).sessions,
        s.callSid = some "CA1" → s.status = "ended") ∧
    ((statusHandler busyReq bridgeW).registry = bridgeW.registry ∧
      (statusHandler busyReq bridgeW).sessions = bridgeW.sessions) :=
  ⟨(status_terminal_cleanup completedReq bridgeW).1 (Or.inl rfl),
   (status_terminal_cleanup busyReq bridgeW).2 (Or.inl rfl)⟩

/-! ## C4: terminal statuses are not protected against overwriting -/

/-- Counterexample to C4 as stated: with call `CA1` stored as `completed`, a
later callback reporting the non-terminal status `ringing` overwrites the
stored terminal status. -/
theorem status_overwrite_counterexample :
    (((statusHandler ringingReq bridgeTerminal).calls.lookup "CA1").map
        CallRec.status) = some "ringing" ∧
    (((bridgeTerminal.calls.lookup "CA1").map CallRec.status) = some "completed") ∧
    "ringing" ≠ "completed" := by decide

/-- Idempotence of the call-row update on re-application of the same body. -/
theorem updateCallRec_idem (req : StatusReq) (c : CallRec) :
    updateCallRec req (updateCallRec req c) = updateCallRec req c := by
  cases c
  simp only [updateCallRec, CallRec.mk.injEq, true_and]
  constructor <;> split <;> rfl

/-- Idempotence of registry deletion. -/
theorem removeCall_idem (sid : String) (reg : Registry) :
    removeCall sid (removeCall sid reg) = removeCall sid reg := by
  induction reg with
  | nil => rfl
  | cons e t ih =>
    by_cases hk : (e.1 == sid) = true
    · simp [removeCall, hk]
    · simp only [removeCall, List.filter_cons, hk, Bool.not_false] at ih ⊢
      simp [hk]

/-- Amended claim C4: the status callback overwrites the stored call status
with the reported one unconditionally — re-delivering the same callback is
idempotent, but a later callback reporting a non-terminal status (e.g.
`ringing`) replaces a stored terminal status rather than being rejected. -/
theorem status_overwrite_and_idempotent (req : StatusReq) (st : BridgeState) :
    statusHandler req (statusHandler req st) = statusHandler req st ∧
    (∀ k c, (k, c) ∈ (statusHandler req st).calls → k = req.callSid →
      c.status = req.callStatus) := by
  constructor
  · have hcalls : ∀ l : List (String × CallRec),
        ((l.map fun e => if e.1 == req.callSid then (e.1, updateCallRec req e.2) else e).map
          fun e => if e.1 == req.callSid then (e.1, updateCallRec req e.2) else e) =
        l.map fun e => if e.1 == req.callSid then (e.1, updateCallRec req e.2) else e := by
      intro l
      rw [List.map_map]
      refine List.map_congr_left fun e _ => ?_
      dsimp only [Function.comp]
      by_cases hk : (e.1 == req.callSid) = true
      · rw [if_pos hk]
        dsimp only
        rw [if_pos hk, updateCallRec_idem]
      · rw [if_neg hk, if_neg hk]
    have hsess : ∀ l : List SessionRec,
        ((l.map fun s => if s.callSid == some req.callSid then { s with status := "ended" } else s).map
          fun s => if s.callSid == some req.callSid then { s with status := "ended" } else s) =
        l.map fun s => if s.callSid == some req.callSid then { s with status := "ended" } else s := by
      intro l
      rw [List.map_map]
      refine List.map_congr_left fun s _ => ?_
      dsimp only [Function.comp]
      by_cases hk : (s.callSid == some req.callSid) = true
      · rw [if_pos hk]
        dsimp only
        rw [if_pos hk]
      · rw [if_neg hk, if_neg hk]
    by_cases hcond : (req.callStatus == "completed" || req.callStatus == "failed") = true
    · simp only [statusHandler, hcond, if_true]
      exact BridgeState.mk.injEq .. ▸ ⟨hcalls st.calls, hsess st.sessions, removeCall_idem _ _⟩
    · simp only [statusHandler, hcond, Bool.false_eq_true, if_false]
      exact BridgeState.mk.injEq .. ▸ ⟨hcalls st.calls, rfl, rfl⟩
  · intro k c hmem hk
    have hcalls : c ∈ ((statusHandler req st).calls.filter fun e => e.1 == req.callSid).map
        Prod.snd := by
      exact List.mem_map.mpr ⟨(k, c), List.mem_filter.mpr ⟨hmem, by simp [hk]⟩, rfl⟩
    have : (statusHandler req st).calls =
        st.calls.map fun e => if e.1 == req.callSid then (e.1, updateCallRec req e.2) else e := by
      by_cases hcond : (req.callStatus == "completed" || req.callStatus == "failed") = true <;>
        simp [statusHandler, hcond]
    rw [this] at hmem
    obtain ⟨e, _, heq⟩ := List.mem_map.mp hmem
    by_cases hke : (e.1 == req.callSid) = true
    · rw [if_pos hke] at heq
      have hc : updateCallRec req e.2 = c := congrArg Prod.snd heq
      rw [← hc]
      rfl
    · rw [if_neg (by simp [hke])] at heq
      obtain rfl : e = (k, c) := heq
      rw [hk] at hke
      simp at hke

/-- Closed instance of amended C4: re-applying the `ringing` callback is
idempotent, and the stored status equals the reported one. -/
theorem status_overwrite_and_idempotent_witness :
    statusHandler ringingReq (statusHandler ringingReq bridgeTerminal) =
      statusHandler ringingReq bridgeTerminal ∧
    (updateCallRec ringingReq
        { status := "completed", durationSeconds := 42, answeredBy := none,
          endedAt := true }).status = ringingReq.callStatus :=
  ⟨(status_overwrite_and_idempotent ringingReq bridgeTerminal).1,
   (status_overwrite_and_idempotent ringingReq bridgeTerminal).2 "CA1"
      (updateCallRec ringingReq
        { status := "completed", durationSeconds := 42, answeredBy := none,
          endedAt := true })
      (by decide) rfl⟩

/-! ## C9: base64 round trip -/

/-- Decoding the digit of a 6-bit value gives the value back (all 64 cases). -/
theorem charToSextet_sextetToChar_fin :
    ∀ n : Fin 64, charToSextet (sextetToChar n.val) = n.val := by decide

/-- Decoding the digit of a 6-bit value gives the value back. -/
theorem charToSextet_sextetToChar (n : Nat) (h : n < 64) :
    charToSextet (sextetToChar n) = n :=
  charToSextet_sextetToChar_fin ⟨n, h⟩

/-- No base64 digit is the padding character (all 64 cases). -/
theorem sextetToChar_ne_pad_fin :
    ∀ n : Fin 64, (sextetToChar n.val == '=') = false := by decide

/-- No base64 digit is the padding character. -/
theorem sextetToChar_ne_pad (n : Nat) (h : n < 64) :
    (sextetToChar n == '=') = false :=
  sextetToChar_ne_pad_fin ⟨n, h⟩

/-- Round trip of the codec on byte lists, by three-byte chunks. -/
theorem b64decode_b64encode :
    ∀ bs : List Nat, (∀ x ∈ bs, x < 256) → b64decode (b64encode bs) = bs
  | [], _ => rfl
  | [a], hb => by
    have ha : a < 256 := hb a (by simp)
    simp only [b64encode, b64decode, beq_self_eq_true, if_true]
    rw [charToSextet_sextetToChar (a / 4) (by omega),
        charToSextet_sextetToChar (a % 4 * 16) (by omega)]
    simp only [List.cons.injEq, and_true]
    omega
  | [a, b], hb => by
    have ha : a < 256 := hb a (by simp)
    have hbb : b < 256 := hb b (by simp)
    simp only [b64encode, b64decode, sextetToChar_ne_pad (b % 16 * 4) (by omega),
      Bool.false_eq_true, if_false, beq_self_eq_true, if_true]
    rw [charToSextet_sextetToChar (a / 4) (by omega),
        charToSextet_sextetToChar (a % 4 * 16 + b / 16) (by omega),
        charToSextet_sextetToChar (b % 16 * 4) (by omega)]
    simp only [List.cons.injEq, and_true]
    omega
  | a :: b :: c :: rest, hb => by
    have ha : a < 256 := hb a (by simp)
    have hbb : b < 256 := hb b (by simp)
    have hc : c < 256 := hb c (by simp)
    have ih := b64decode_b64encode rest fun x hx => hb x (by simp [hx])
    simp only [b64encode, b64decode, sextetToChar_ne_pad (b % 16 * 4 + c / 64) (by omega),
      sextetToChar_ne_pad (c % 64) (by omega), Bool.false_eq_true, if_false]
    rw [charToSextet_sextetToChar (a / 4) (by omega),
        charToSextet_sextetToChar (a % 4 * 16 + b / 16) (by omega),
        charToSextet_sextetToChar (b % 16 * 4 + c / 64) (by omega),
        charToSextet_sextetToChar (c % 64) (by omega), ih]
    simp only [List.cons.injEq, and_true]
    omega

/-- Claim C9: audio bytes encoded to base64 for the socket transport and
decoded back are byte-identical to the original. -/
theorem b64_roundtrip (bs : AudioBytes) (h : ∀ x ∈ bs, x < 256) :
    b64decodeS (b64encodeS bs) = bs :=
  b64decode_b64encode bs h

/-- Closed instance of C9 on a concrete five-byte buffer. -/
theorem b64_roundtrip_witness :
    b64decodeS (b64encodeS [0, 255, 77, 128, 1]) = [0, 255, 77, 128, 1] :=
  b64_roundtrip [0, 255, 77, 128, 1] (by decide)

end VoiceAI
